import Mathlib

/-!
Job-lifecycle controller of `frontend/app.js`.

The script is a single-threaded event-loop program.  The model below is a
step function on an explicit state: the DOM properties the script reads and
writes, the global `pollInterval`, the interval timers armed in the browser,
and the fetches that have been issued and not yet settled.

Every handler runs atomically up to its first `await`; the rest of an async
function runs when the awaited fetch settles.  `await fetch(..)` followed by
`await response.json()` is one settlement here: between the two the
function neither reads nor writes shared state.

Strings are Lean strings (sequences of code points); `jsLength` counts
UTF-16 code units as `String.prototype.length` does.
-/

namespace BedRock

/-! ## JavaScript values -/

/-- Code points removed by `String.prototype.trim` (WhiteSpace and LineTerminator). -/
def isJsWhitespace (c : Char) : Bool :=
  let n := c.toNat
  n == 9 || n == 10 || n == 11 || n == 12 || n == 13 || n == 32 || n == 160 ||
  n == 5760 || (8192 ≤ n && n ≤ 8202) || n == 8232 || n == 8233 || n == 8239 ||
  n == 8287 || n == 12288 || n == 65279

/-- The method `String.prototype.trim`. -/
def jsTrim (v : String) : String :=
  ⟨((v.data.dropWhile isJsWhitespace).reverse.dropWhile isJsWhitespace).reverse⟩

/-- The property `String.prototype.length`: the number of UTF-16 code units. -/
def jsLength (v : String) : Nat :=
  (v.data.map fun c => if c.toNat < 65536 then 1 else 2).sum

/-- The expression `x || d` for a string `x`: the empty string is falsy. -/
def strOr (x d : String) : String :=
  if x = "" then d else x

/-- The expression `x || d` for a string-valued property that may be absent (`undefined`). -/
def jsOr (x : Option String) (d : String) : String :=
  match x with
  | some v => strOr v d
  | none => d

/-- Truthiness of a string-valued property that may be absent. -/
def truthy (x : Option String) : Bool :=
  match x with
  | some v => v != ""
  | none => false

/-- String conversion inside a template literal; an absent property prints as `undefined`. -/
def jsToString (x : Option String) : String :=
  match x with
  | some v => v
  | none => "undefined"

/-- The result of `parseInt(.., 10)`: `none` is `NaN`. -/
abbrev JsInt := Option Int

/-- The comparison `len > max`; every comparison with `NaN` is false. -/
def jsGt (len : Nat) (max : JsInt) : Bool :=
  match max with
  | some m => decide (m < (len : Int))
  | none => false

/-- Number-to-string conversion of a `parseInt` result. -/
def jsIntToString (max : JsInt) : String :=
  match max with
  | some m => toString m
  | none => "NaN"

/-! ## Network -/

/-- The properties the script reads from a response body.  They are
strings, as the two endpoints declare them; `none` is an absent property. -/
structure Fields where
  job_id : Option String
  detail : Option String
  status : Option String
  video_url : Option String
deriving DecidableEq, Repr

/-- A parsed JSON body.  Reading a property of `null` throws a `TypeError`
whose message `typeErrorMsg` is chosen by the engine; every other JSON value
is seen through the properties the script reads. -/
inductive Json where
  | null (typeErrorMsg : String)
  | obj (f : Fields)
deriving DecidableEq, Repr

/-- What `response.json()` settles to: a rejection with the engine's
`SyntaxError` message, or the parsed value. -/
inductive Body where
  | unparsable (syntaxErrorMsg : String)
  | json (j : Json)
deriving DecidableEq, Repr

/-- How a `fetch` settles: it rejects with an error carrying `msg`, or it
resolves to a response with its `ok` flag (status in 200-299) and body. -/
inductive Outcome where
  | rejected (msg : String)
  | response (ok : Bool) (body : Body)
deriving DecidableEq, Repr

/-- A request issued by `fetch`. -/
inductive Request where
  | post (url : String) (prompt : String)
  | get (url : String)
deriving DecidableEq, Repr

/-- Whether a request is a status request (a `GET`). -/
def Request.isGet : Request → Bool
  | Request.get _ => true
  | Request.post _ _ => false

/-- Whether a request is a create-job request (a `POST`). -/
def Request.isPost : Request → Bool
  | Request.get _ => false
  | Request.post _ _ => true

/-! ## State -/

/-- An armed interval timer: its handle, the `jobId` captured by the
`checkStatus` closure it runs, and its period in milliseconds. -/
structure Timer where
  handle : Nat
  jobId : Option String
  delay : Nat
deriving DecidableEq, Repr

/-- The state of the page.  `sent` (every request issued so far, oldest
first) and `pollCalls` (the number of invocations of `pollJobStatus`) are
observation-only: no handler reads them. -/
structure State where
  MAX_CHAR : JsInt
  promptInput_value : String
  charCount_textContent : String
  generateBtn_disabled : Bool
  generateBtn_textContent : String
  statusText_textContent : String
  videoEl_src : String
  videoSection_hidden : Bool
  downloadLink_href : String
  pollInterval : Option Nat
  timers : List Timer
  nextHandle : Nat
  pending : List (Nat × Request)
  sent : List Request
  pollCalls : Nat
deriving DecidableEq, Repr

/-- Something that happens to the page: the user edits the prompt, the
`click` listener of the button is dispatched, an armed interval timer fires, a
pending fetch settles.  `callPoll` is a direct call of `pollJobStatus`; the
script itself calls it only from `startVideoJob`.  A browser does not deliver a
user's click to a disabled button; `click` is allowed in every state, so the
reachable states below include all those of the page. -/
inductive Event where
  | input (v : String)
  | click
  | callPoll (jobId : Option String)
  | tick (handle : Nat)
  | settle (rid : Nat) (o : Outcome)
deriving DecidableEq, Repr

/-! ## The script -/

/-- The function `setLoadingState`. -/
def setLoadingState (s : State) (isLoading : Bool) : State :=
  { s with
    generateBtn_disabled := isLoading
    generateBtn_textContent := if isLoading then "Generating…" else "Generate Video" }

/-- The browser's `clearInterval`: a `null` handle, or one that is not armed, does nothing. -/
def clearInterval (s : State) (h : Option Nat) : State :=
  match h with
  | some k => { s with timers := s.timers.filter fun t => t.handle != k }
  | none => s

/-- The browser's `setInterval`: arms a timer under a fresh handle and returns the handle. -/
def setInterval (s : State) (jobId : Option String) (delay : Nat) : State × Nat :=
  ({ s with
      timers := s.timers ++ [{ handle := s.nextHandle, jobId := jobId, delay := delay }]
      nextHandle := s.nextHandle + 1 },
   s.nextHandle)

/-- The browser's `fetch`: the request goes out and is pending under a fresh id. -/
def fetch (s : State) (r : Request) : State :=
  { s with
    sent := s.sent ++ [r]
    pending := s.pending ++ [(s.sent.length, r)] }

/-- The function `fetchJobStatus` up to its `await`. -/
def fetchJobStatus (s : State) (jobId : Option String) : State :=
  fetch s (Request.get ("/api/video-status/" ++ jsToString jobId))

/-- The closure `checkStatus` up to its `await`. -/
def checkStatus (s : State) (jobId : Option String) : State :=
  fetchJobStatus s jobId

/-- The function `pollJobStatus`. -/
def pollJobStatus (s : State) (jobId : Option String) : State :=
  let s0 := { s with pollCalls := s.pollCalls + 1 }
  let s1 :=
    match s0.pollInterval with
    | some h => if h ≠ 0 then clearInterval s0 (some h) else s0
    | none => s0
  let (s2, h) := setInterval s1 jobId 5000
  let s3 := { s2 with pollInterval := some h }
  checkStatus s3 jobId

/-- What `await fetchJobStatus(jobId)` yields in `checkStatus`: the message
of the thrown error, or the data. -/
def fetchJobStatusResult (o : Outcome) : Except String Json :=
  match o with
  | Outcome.rejected msg => Except.error msg
  | Outcome.response false (Body.unparsable _) =>
      Except.error (strOr "Unknown error" "Failed to fetch job status")
  | Outcome.response false (Body.json (Json.null msg)) => Except.error msg
  | Outcome.response false (Body.json (Json.obj f)) =>
      Except.error (jsOr f.detail "Failed to fetch job status")
  | Outcome.response true (Body.unparsable msg) => Except.error msg
  | Outcome.response true (Body.json j) => Except.ok j

/-- The `catch` block of `checkStatus`. -/
def checkStatusCatch (s : State) (msg : String) : State :=
  let s1 := clearInterval s s.pollInterval
  let s2 := { s1 with pollInterval := none }
  let s3 := setLoadingState s2 false
  { s3 with statusText_textContent := strOr msg "Unable to get job status." }

/-- The closure `checkStatus` from its `await` on. -/
def checkStatusResume (s : State) (o : Outcome) : State :=
  match fetchJobStatusResult o with
  | Except.error msg => checkStatusCatch s msg
  | Except.ok (Json.null msg) => checkStatusCatch s msg
  | Except.ok (Json.obj data) =>
      let s1 := { s with
        statusText_textContent :=
          jsOr data.detail ("Current status: " ++ jsToString data.status) }
      if data.status = some "completed" ∧ truthy data.video_url = true then
        let s2 := clearInterval s1 s1.pollInterval
        let s3 := { s2 with pollInterval := none }
        let s4 := setLoadingState s3 false
        { s4 with
          videoEl_src := jsToString data.video_url
          videoSection_hidden := false
          downloadLink_href := jsToString data.video_url
          statusText_textContent := "Video ready!" }
      else if data.status = some "failed" then
        let s2 := clearInterval s1 s1.pollInterval
        let s3 := { s2 with pollInterval := none }
        let s4 := setLoadingState s3 false
        { s4 with statusText_textContent := jsOr data.detail "Video generation failed." }
      else s1

/-- The function `startVideoJob` up to its `await`. -/
def startVideoJob (s : State) : State :=
  let prompt := jsTrim s.promptInput_value
  if prompt = "" then
    { s with statusText_textContent := "Please enter a prompt before generating a video." }
  else
    let s1 := setLoadingState s true
    let s2 := { s1 with
      videoSection_hidden := true
      statusText_textContent := "Starting video generation job…" }
    fetch s2 (Request.post "/api/generate-video" prompt)

/-- The `catch` block of `startVideoJob`. -/
def startVideoJobCatch (s : State) (msg : String) : State :=
  let s1 := { s with
    statusText_textContent := strOr msg "Unable to start video generation job." }
  setLoadingState s1 false

/-- The function `startVideoJob` from its `await` on. -/
def startVideoJobResume (s : State) (o : Outcome) : State :=
  match o with
  | Outcome.rejected msg => startVideoJobCatch s msg
  | Outcome.response false (Body.unparsable _) =>
      startVideoJobCatch s (strOr "Unknown error" "Failed to start video job")
  | Outcome.response false (Body.json (Json.null msg)) => startVideoJobCatch s msg
  | Outcome.response false (Body.json (Json.obj f)) =>
      startVideoJobCatch s (jsOr f.detail "Failed to start video job")
  | Outcome.response true (Body.unparsable msg) => startVideoJobCatch s msg
  | Outcome.response true (Body.json j) =>
      let s1 := { s with
        statusText_textContent :=
          "Video generation started. This may take a couple of minutes…" }
      match j with
      | Json.null msg => startVideoJobCatch s1 msg
      | Json.obj data => pollJobStatus s1 data.job_id

/-- The `input` listener of the prompt field, after the browser stored the new value. -/
def onInput (s : State) (v : String) : State :=
  { s with
    promptInput_value := v
    charCount_textContent := toString (jsLength v) ++ " / " ++ jsIntToString s.MAX_CHAR }

/-- The `click` listener of the generate button. -/
def onClick (s : State) : State :=
  if jsGt (jsLength s.promptInput_value) s.MAX_CHAR = true then
    { s with statusText_textContent := "Prompt exceeds maximum length." }
  else
    startVideoJob s

/-- One turn of the event loop.  A tick of a handle that is not armed and a
settlement of a request that is not pending do nothing. -/
def step (s : State) (e : Event) : State :=
  match e with
  | Event.input v => onInput s v
  | Event.click => onClick s
  | Event.callPoll jobId => pollJobStatus s jobId
  | Event.tick h =>
      match s.timers.find? fun t => t.handle == h with
      | some t => checkStatus s t.jobId
      | none => s
  | Event.settle rid o =>
      match s.pending.lookup rid with
      | none => s
      | some req =>
          let s1 := { s with pending := s.pending.filter fun p => p.1 != rid }
          match req with
          | Request.post _ _ => startVideoJobResume s1 o
          | Request.get _ => checkStatusResume s1 o

/-- A sequence of turns. -/
def run (s : State) (es : List Event) : State :=
  es.foldl step s

/-- The page right after the script has loaded: nothing armed, nothing sent. -/
def Initial (s : State) : Prop :=
  s.pollInterval = none ∧ s.timers = [] ∧ 0 < s.nextHandle ∧ s.pending = [] ∧
  s.sent = [] ∧ s.pollCalls = 0

/-- The states the page can be in. -/
def Reachable (s : State) : Prop :=
  ∃ s0 es, Initial s0 ∧ s = run s0 es

/-- A freshly loaded page with the given prompt in the field. -/
def page (max : JsInt) (prompt : String) : State :=
  { MAX_CHAR := max
    promptInput_value := prompt
    charCount_textContent := ""
    generateBtn_disabled := false
    generateBtn_textContent := "Generate Video"
    statusText_textContent := ""
    videoEl_src := ""
    videoSection_hidden := true
    downloadLink_href := ""
    pollInterval := none
    timers := []
    nextHandle := 1
    pending := []
    sent := []
    pollCalls := 0 }

/-- A body carrying only the given properties. -/
def noFields : Fields :=
  { job_id := none, detail := none, status := none, video_url := none }

/-- A 2xx response whose body is a JSON value with the given properties. -/
def okJson (f : Fields) : Outcome :=
  Outcome.response true (Body.json (Json.obj f))

/-! ## Concrete pages and traces -/

/-- A page limited to 3 characters holding a padded two-letter prompt. -/
def paddedPage : State :=
  page (some 3) "  ab  "

/-- Tracking job `A`, then tracking job `B` while the first status request for `A` is in flight. -/
def supersededTrace : List Event :=
  [Event.callPoll (some "A"), Event.callPoll (some "B")]

/-- The same overlap driven by the button alone: job `A` is created and
polled twice, the first poll gets a 503 with an unreadable body, which
re-enables the button; a second click creates job `B`.  The second status
request for `A` (id 2) is still in flight at the end. -/
def resubmitTrace : List Event :=
  [Event.click,
   Event.settle 0 (okJson { noFields with job_id := some "A" }),
   Event.tick 1,
   Event.settle 1 (Outcome.response false (Body.unparsable "Unexpected token <")),
   Event.click,
   Event.settle 3 (okJson { noFields with job_id := some "B" })]

/-- A status body of job `A`: completed, with its video. -/
def readyA : Fields :=
  { noFields with status := some "completed", video_url := some "https://x/A.mp4" }

/-- A status body: failed, with a detail. -/
def failedData : Fields :=
  { noFields with status := some "failed", detail := some "model error" }

/-- A status body: completed, with its video. -/
def readyData : Fields :=
  { noFields with status := some "completed", video_url := some "https://x/y.mp4" }

/-- A status body: completed, without a video. -/
def completedNoUrl : Fields :=
  { noFields with status := some "completed" }

/-- The page after `a cat surfing` was submitted: the create request (id 0) is in flight. -/
def submittedPage : State :=
  run (page (some 100) "a cat surfing") [Event.click]

/-- The page after the create request returned job `42`: the first status
request (id 1) is in flight and timer 1 is armed. -/
def trackingPage : State :=
  run (page (some 100) "a cat surfing")
    [Event.click, Event.settle 0 (okJson { noFields with job_id := some "42" })]

/-- The bookkeeping of handles that every reachable state satisfies: the
armed timers are exactly the handle stored in `pollInterval`, and stored
handles are positive and already handed out. -/
def Inv (s : State) : Prop :=
  0 < s.nextHandle ∧ s.timers.map Timer.handle = s.pollInterval.toList ∧
  ∀ h, s.pollInterval = some h → 0 < h ∧ h < s.nextHandle

/-! ## Handle bookkeeping -/

theorem filter_stored_nil {s : State} (hi : Inv s) {h : Nat} (hp : s.pollInterval = some h) :
    (s.timers.filter fun t => t.handle != h) = [] := by
  obtain ⟨_, hm, _⟩ := hi
  rw [hp] at hm
  rw [List.filter_eq_nil_iff]
  intro t ht
  have hmem : t.handle ∈ s.timers.map Timer.handle := List.mem_map_of_mem _ ht
  rw [hm] at hmem
  simp at hmem
  simp [hmem]

theorem timers_nil_of_none {s : State} (hi : Inv s) (hp : s.pollInterval = none) :
    s.timers = [] := by
  obtain ⟨_, hm, _⟩ := hi
  rw [hp] at hm
  simpa using hm

theorem clearStored_timers {s : State} (hi : Inv s) :
    (clearInterval s s.pollInterval).timers = [] := by
  cases hp : s.pollInterval with
  | none => simpa [clearInterval] using timers_nil_of_none hi hp
  | some h => simpa [clearInterval] using filter_stored_nil hi hp

theorem inv_congr {s s' : State} (hi : Inv s) (hn : s'.nextHandle = s.nextHandle)
    (ht : s'.timers = s.timers) (hp : s'.pollInterval = s.pollInterval) : Inv s' := by
  unfold Inv at *
  rw [hn, ht, hp]
  exact hi

theorem inv_cleared {s s' : State} (hi : Inv s) (hn : s'.nextHandle = s.nextHandle)
    (ht : s'.timers = []) (hp : s'.pollInterval = none) : Inv s' := by
  unfold Inv at *
  rw [hn, ht, hp]
  exact ⟨hi.1, by simp, by simp⟩

/-- What `pollJobStatus` does to a state whose handles are in order. -/
theorem pollJobStatus_spec {s : State} (hi : Inv s) (jobId : Option String) :
    (pollJobStatus s jobId).timers
        = [{ handle := s.nextHandle, jobId := jobId, delay := 5000 }] ∧
    (pollJobStatus s jobId).pollInterval = some s.nextHandle ∧
    (pollJobStatus s jobId).nextHandle = s.nextHandle + 1 ∧
    (pollJobStatus s jobId).sent
        = s.sent ++ [Request.get ("/api/video-status/" ++ jsToString jobId)] ∧
    (pollJobStatus s jobId).pending
        = s.pending ++ [(s.sent.length, Request.get ("/api/video-status/" ++ jsToString jobId))] ∧
    (pollJobStatus s jobId).pollCalls = s.pollCalls + 1 ∧
    (pollJobStatus s jobId).statusText_textContent = s.statusText_textContent ∧
    (pollJobStatus s jobId).generateBtn_disabled = s.generateBtn_disabled ∧
    (pollJobStatus s jobId).videoSection_hidden = s.videoSection_hidden := by
  cases hp : s.pollInterval with
  | none =>
      have ht := timers_nil_of_none hi hp
      simp [pollJobStatus, setInterval, checkStatus, fetchJobStatus, fetch, hp, ht]
  | some h =>
      have ht := filter_stored_nil hi hp
      have h0 : h ≠ 0 := Nat.pos_iff_ne_zero.mp (hi.2.2 h hp).1
      simp [pollJobStatus, setInterval, checkStatus, fetchJobStatus, fetch, clearInterval,
        hp, ht, h0]

theorem inv_pollJobStatus {s : State} (hi : Inv s) (jobId : Option String) :
    Inv (pollJobStatus s jobId) := by
  obtain ⟨ht, hp, hn, _⟩ := pollJobStatus_spec hi jobId
  unfold Inv
  rw [ht, hp, hn]
  refine ⟨Nat.succ_pos _, by simp, ?_⟩
  intro h hh
  simp at hh
  subst hh
  exact ⟨hi.1, Nat.lt_succ_self _⟩

/-- The two ways `checkStatus` can end: it stops the poll, or it leaves the timers alone.
It never sends a request and never calls `pollJobStatus`. -/
theorem checkStatusResume_frame (s : State) (o : Outcome) :
    (checkStatusResume s o).sent = s.sent ∧
    (checkStatusResume s o).pollCalls = s.pollCalls ∧
    (checkStatusResume s o).nextHandle = s.nextHandle ∧
    (checkStatusResume s o).pending = s.pending ∧
    (((checkStatusResume s o).timers = (clearInterval s s.pollInterval).timers ∧
        (checkStatusResume s o).pollInterval = none) ∨
      ((checkStatusResume s o).timers = s.timers ∧
        (checkStatusResume s o).pollInterval = s.pollInterval)) := by
  unfold checkStatusResume
  split
  · cases hp : s.pollInterval <;>
      simp [checkStatusCatch, clearInterval, setLoadingState, hp]
  · cases hp : s.pollInterval <;>
      simp [checkStatusCatch, clearInterval, setLoadingState, hp]
  · dsimp only
    split
    · cases hp : s.pollInterval <;> simp [clearInterval, setLoadingState, hp]
    · split
      · cases hp : s.pollInterval <;> simp [clearInterval, setLoadingState, hp]
      · simp

theorem inv_checkStatusResume {s : State} (hi : Inv s) (o : Outcome) :
    Inv (checkStatusResume s o) := by
  obtain ⟨_, _, hn, _, h | h⟩ := checkStatusResume_frame s o
  · exact inv_cleared hi hn (h.1.trans (clearStored_timers hi)) h.2
  · exact inv_congr hi hn h.1 h.2

theorem startVideoJobCatch_frame (s : State) (msg : String) :
    (startVideoJobCatch s msg).sent = s.sent ∧
    (startVideoJobCatch s msg).pollCalls = s.pollCalls ∧
    (startVideoJobCatch s msg).nextHandle = s.nextHandle ∧
    (startVideoJobCatch s msg).timers = s.timers ∧
    (startVideoJobCatch s msg).pollInterval = s.pollInterval := by
  simp [startVideoJobCatch, setLoadingState]

/-- The two ways `startVideoJob` can end: in its `catch` block, which
touches neither timers nor network, or in `pollJobStatus`. -/
theorem startVideoJobResume_cases (s : State) (o : Outcome) :
    (∃ s1 msg, startVideoJobResume s o = startVideoJobCatch s1 msg ∧
        s1.sent = s.sent ∧ s1.pollCalls = s.pollCalls ∧ s1.nextHandle = s.nextHandle ∧
        s1.timers = s.timers ∧ s1.pollInterval = s.pollInterval) ∨
    (∃ s1 jobId, startVideoJobResume s o = pollJobStatus s1 jobId ∧
        s1.sent = s.sent ∧ s1.pollCalls = s.pollCalls ∧ s1.nextHandle = s.nextHandle ∧
        s1.timers = s.timers ∧ s1.pollInterval = s.pollInterval) := by
  unfold startVideoJobResume
  split
  · exact Or.inl ⟨s, _, rfl, rfl, rfl, rfl, rfl, rfl⟩
  · exact Or.inl ⟨s, _, rfl, rfl, rfl, rfl, rfl, rfl⟩
  · exact Or.inl ⟨s, _, rfl, rfl, rfl, rfl, rfl, rfl⟩
  · exact Or.inl ⟨s, _, rfl, rfl, rfl, rfl, rfl, rfl⟩
  · exact Or.inl ⟨s, _, rfl, rfl, rfl, rfl, rfl, rfl⟩
  · dsimp only
    split
    · exact Or.inl ⟨_, _, rfl, rfl, rfl, rfl, rfl, rfl⟩
    · exact Or.inr ⟨_, _, rfl, rfl, rfl, rfl, rfl, rfl⟩

theorem inv_startVideoJobResume {s : State} (hi : Inv s) (o : Outcome) :
    Inv (startVideoJobResume s o) := by
  rcases startVideoJobResume_cases s o with ⟨s1, msg, he, _, _, hn, ht, hp⟩ |
    ⟨s1, jobId, he, _, _, hn, ht, hp⟩
  · rw [he]
    obtain ⟨_, _, hn', ht', hp'⟩ := startVideoJobCatch_frame s1 msg
    exact inv_congr hi (hn'.trans hn) (ht'.trans ht) (hp'.trans hp)
  · rw [he]
    exact inv_pollJobStatus (inv_congr hi hn ht hp) jobId

theorem onClick_frame (s : State) :
    (onClick s).pollCalls = s.pollCalls ∧
    (onClick s).nextHandle = s.nextHandle ∧
    (onClick s).timers = s.timers ∧
    (onClick s).pollInterval = s.pollInterval ∧
    (onClick s).sent.filter Request.isGet = s.sent.filter Request.isGet := by
  unfold onClick startVideoJob
  split
  · simp
  · dsimp only
    split
    · simp
    · simp [fetch, setLoadingState, Request.isGet]

theorem checkStatus_frame (s : State) (jobId : Option String) :
    (checkStatus s jobId).pollCalls = s.pollCalls ∧
    (checkStatus s jobId).nextHandle = s.nextHandle ∧
    (checkStatus s jobId).timers = s.timers ∧
    (checkStatus s jobId).pollInterval = s.pollInterval := by
  simp [checkStatus, fetchJobStatus, fetch]

/-- Every turn of the event loop keeps the handles in order. -/
theorem inv_step {s : State} (hi : Inv s) (e : Event) : Inv (step s e) := by
  cases e with
  | input v => exact inv_congr hi rfl rfl rfl
  | click =>
      obtain ⟨_, hn, ht, hp, _⟩ := onClick_frame s
      exact inv_congr hi hn ht hp
  | callPoll jobId => exact inv_pollJobStatus hi jobId
  | tick h =>
      simp only [step]
      split
      · rename_i t _
        obtain ⟨_, hn, ht, hp⟩ := checkStatus_frame s t.jobId
        exact inv_congr hi hn ht hp
      · exact hi
  | settle rid o =>
      simp only [step]
      split
      · exact hi
      · rename_i req _
        have hi1 : Inv { s with pending := s.pending.filter fun p => p.1 != rid } :=
          inv_congr hi rfl rfl rfl
        cases req with
        | post url prompt => exact inv_startVideoJobResume hi1 o
        | get url => exact inv_checkStatusResume hi1 o

theorem inv_run {s : State} (hi : Inv s) (es : List Event) : Inv (run s es) := by
  induction es generalizing s with
  | nil => exact hi
  | cons e es ih => exact ih (inv_step hi e)

theorem inv_initial {s : State} (h : Initial s) : Inv s := by
  obtain ⟨hp, ht, hn, _⟩ := h
  unfold Inv
  rw [hp, ht]
  exact ⟨hn, by simp, by simp⟩

theorem inv_reachable {s : State} (h : Reachable s) : Inv s := by
  obtain ⟨s0, es, h0, rfl⟩ := h
  exact inv_run (inv_initial h0) es

theorem reachable_page (max : JsInt) (prompt : String) (es : List Event) :
    Reachable (run (page max prompt) es) :=
  ⟨page max prompt, es, ⟨rfl, rfl, Nat.one_pos, rfl, rfl, rfl⟩, rfl⟩

/-! ## Silence once no timer is armed -/

theorem pollJobStatus_pollCalls (s : State) (jobId : Option String) :
    (pollJobStatus s jobId).pollCalls = s.pollCalls + 1 := by
  unfold pollJobStatus
  cases hp : s.pollInterval with
  | none => simp [setInterval, checkStatus, fetchJobStatus, fetch, hp]
  | some h =>
      by_cases h0 : h = 0 <;>
        simp [setInterval, checkStatus, fetchJobStatus, fetch, clearInterval, hp, h0]

/-- What a turn does to the count of `pollJobStatus` calls, the timers and
the status requests: either it called `pollJobStatus`, or no timer was added
and a status request went out only if a timer was armed. -/
theorem step_quiet (s : State) (e : Event) :
    (step s e).pollCalls = s.pollCalls + 1 ∨
    ((step s e).pollCalls = s.pollCalls ∧
      (s.timers = [] → (step s e).timers = [] ∧
        (step s e).sent.filter Request.isGet = s.sent.filter Request.isGet)) := by
  cases e with
  | input v => exact Or.inr ⟨rfl, fun ht => ⟨ht, rfl⟩⟩
  | click =>
      obtain ⟨hc, _, ht, _, hs⟩ := onClick_frame s
      exact Or.inr ⟨hc, fun h0 => ⟨ht.trans h0, hs⟩⟩
  | callPoll jobId => exact Or.inl (pollJobStatus_pollCalls s jobId)
  | tick h =>
      refine Or.inr ?_
      simp only [step]
      split
      · rename_i t ht
        refine ⟨(checkStatus_frame s t.jobId).1, fun h0 => ?_⟩
        rw [h0] at ht
        simp at ht
      · exact ⟨rfl, fun h0 => ⟨h0, rfl⟩⟩
  | settle rid o =>
      simp only [step]
      split
      · exact Or.inr ⟨rfl, fun h0 => ⟨h0, rfl⟩⟩
      · rename_i req _
        cases req with
        | post url prompt =>
            dsimp only
            rcases startVideoJobResume_cases
                { s with pending := s.pending.filter fun p => p.1 != rid } o with
              ⟨s1, msg, he, hs, hc, _, ht, _⟩ | ⟨s1, jobId, he, _, hc, _, _, _⟩
            · refine Or.inr ?_
              rw [he]
              obtain ⟨hs', hc', _, ht', _⟩ := startVideoJobCatch_frame s1 msg
              refine ⟨hc'.trans hc, fun h0 => ⟨(ht'.trans ht).trans h0, ?_⟩⟩
              rw [hs', hs]
            · refine Or.inl ?_
              rw [he, pollJobStatus_pollCalls, hc]
        | get url =>
            dsimp only
            refine Or.inr ?_
            obtain ⟨hs, hc, _, _, h | h⟩ :=
              checkStatusResume_frame { s with pending := s.pending.filter fun p => p.1 != rid } o
            · refine ⟨hc, fun h0 => ⟨?_, by rw [hs]⟩⟩
              rw [h.1]
              cases hp : s.pollInterval <;> simp [clearInterval, hp, h0]
            · exact ⟨hc, fun h0 => ⟨h.1.trans h0, by rw [hs]⟩⟩

theorem pollCalls_le_step (s : State) (e : Event) : s.pollCalls ≤ (step s e).pollCalls := by
  rcases step_quiet s e with h | h
  · omega
  · omega

theorem pollCalls_le_run (s : State) (es : List Event) : s.pollCalls ≤ (run s es).pollCalls := by
  induction es generalizing s with
  | nil => exact Nat.le_refl _
  | cons e es ih => exact Nat.le_trans (pollCalls_le_step s e) (ih (step s e))

/-- With no timer armed, a run in which `pollJobStatus` is never called
sends no status request. -/
theorem run_quiet (es : List Event) (s : State) (ht : s.timers = [])
    (hc : (run s es).pollCalls = s.pollCalls) :
    (run s es).sent.filter Request.isGet = s.sent.filter Request.isGet := by
  induction es generalizing s with
  | nil => rfl
  | cons e es ih =>
      have h1 := pollCalls_le_step s e
      have h2 := pollCalls_le_run (step s e) es
      have hrun : run s (e :: es) = run (step s e) es := rfl
      rw [hrun] at hc ⊢
      rcases step_quiet s e with h | ⟨hq, hrest⟩
      · omega
      · obtain ⟨ht', hs'⟩ := hrest ht
        rw [ih (step s e) ht' (by omega), hs']

/-! ## Submission -/

theorem step_posts (s : State) (e : Event) (he : e ≠ Event.click) :
    (step s e).sent.filter Request.isPost = s.sent.filter Request.isPost := by
  cases e with
  | input v => rfl
  | click => exact absurd rfl he
  | callPoll jobId =>
      cases hp : s.pollInterval with
      | none =>
          simp [step, pollJobStatus, setInterval, checkStatus, fetchJobStatus, fetch, hp,
            Request.isPost]
      | some h =>
          by_cases h0 : h = 0 <;>
            simp [step, pollJobStatus, setInterval, checkStatus, fetchJobStatus, fetch,
              clearInterval, hp, h0, Request.isPost]
  | tick h =>
      simp only [step]
      split
      · simp [checkStatus, fetchJobStatus, fetch, Request.isPost]
      · rfl
  | settle rid o =>
      simp only [step]
      split
      · rfl
      · rename_i req _
        cases req with
        | post url prompt =>
            dsimp only
            rcases startVideoJobResume_cases
                { s with pending := s.pending.filter fun p => p.1 != rid } o with
              ⟨s1, msg, he', hs, _⟩ | ⟨s1, jobId, he', hs, _⟩
            · rw [he', (startVideoJobCatch_frame s1 msg).1, hs]
            · rw [he']
              have hs1 : s1.sent.filter Request.isPost = s.sent.filter Request.isPost := by
                rw [hs]
              rw [← hs1]
              cases hp : s1.pollInterval with
              | none =>
                  simp [pollJobStatus, setInterval, checkStatus, fetchJobStatus, fetch, hp,
                    Request.isPost]
              | some h =>
                  by_cases h0 : h = 0 <;>
                    simp [pollJobStatus, setInterval, checkStatus, fetchJobStatus, fetch,
                      clearInterval, hp, h0, Request.isPost]
        | get url =>
            dsimp only
            rw [(checkStatusResume_frame _ o).1]

/-- C1, as stated, fails: on a page limited to 3 characters the prompt
`"  ab  "` is rejected by the click handler without any request, although its
trimmed form `"ab"` is non-empty and only 2 characters long. -/
theorem C1_padded_prompt_rejected :
    (step paddedPage Event.click).sent = [] ∧
    paddedPage.sent = [] ∧
    jsTrim paddedPage.promptInput_value = "ab" ∧
    jsLength (jsTrim paddedPage.promptInput_value) = 2 ∧
    ¬ ((step paddedPage Event.click).sent = paddedPage.sent ↔
        (jsTrim paddedPage.promptInput_value = "" ∨
          (3 : Int) < (jsLength (jsTrim paddedPage.promptInput_value) : Int))) := by
  decide

/-- C1, amended: a click issues no request iff the untrimmed prompt is longer
than `MAX_CHAR` or the trimmed prompt is empty; otherwise it issues exactly one
`POST /api/generate-video` carrying the trimmed prompt, and no other event ever
issues a `POST`. -/
theorem C1_click_sends_iff (s : State) :
    ((step s Event.click).sent = s.sent ↔
      ((∃ m : Int, s.MAX_CHAR = some m ∧ m < (jsLength s.promptInput_value : Int)) ∨
        jsTrim s.promptInput_value = "")) ∧
    ((step s Event.click).sent = s.sent ∨
      (step s Event.click).sent
        = s.sent ++ [Request.post "/api/generate-video" (jsTrim s.promptInput_value)]) ∧
    (∀ e, e ≠ Event.click →
      (step s e).sent.filter Request.isPost = s.sent.filter Request.isPost) := by
  have hgt : jsGt (jsLength s.promptInput_value) s.MAX_CHAR = true ↔
      ∃ m : Int, s.MAX_CHAR = some m ∧ m < (jsLength s.promptInput_value : Int) := by
    cases hm : s.MAX_CHAR <;> simp [jsGt]
  refine ⟨?_, ?_, fun e he => step_posts s e he⟩
  · rw [← hgt]
    by_cases h1 : jsGt (jsLength s.promptInput_value) s.MAX_CHAR = true
    · simp [step, onClick, h1]
    · by_cases h2 : jsTrim s.promptInput_value = ""
      · simp [step, onClick, startVideoJob, h1, h2]
      · simp [step, onClick, startVideoJob, fetch, setLoadingState, h1, h2]
  · by_cases h1 : jsGt (jsLength s.promptInput_value) s.MAX_CHAR = true
    · simp [step, onClick, h1]
    · by_cases h2 : jsTrim s.promptInput_value = ""
      · simp [step, onClick, startVideoJob, h1, h2]
      · simp [step, onClick, startVideoJob, fetch, setLoadingState, h1, h2]

/-- C1, amended, at the prompt of scenario 2: one `POST`, and the settlement that follows issues none. -/
theorem C1_click_sends_iff_witness :
    Event.settle 0 (Outcome.rejected "Failed to fetch") ≠ Event.click ∧
    (step (page (some 100) "a cat surfing") (Event.settle 0 (Outcome.rejected "Failed to fetch"))).sent.filter
        Request.isPost
      = (page (some 100) "a cat surfing").sent.filter Request.isPost :=
  ⟨by decide,
   (C1_click_sends_iff (page (some 100) "a cat surfing")).2.2
     (Event.settle 0 (Outcome.rejected "Failed to fetch")) (by decide)⟩

/-! ## The poller -/

/-- C2, at its failing inputs.  First trace: `pollJobStatus("A")`, then
`pollJobStatus("B")`; the status request for `A` (id 0) is still in flight and
timer 2, the one of `B`, is armed and stored.  The answer `failed` to the
request for `A` then cancels the timer of `B`, clears `pollInterval` and
rewrites the status message.  Second trace: the same overlap reached through
the button alone (the button is enabled at both clicks); the late answer
`completed` for `A` cancels the timer of `B`, re-enables the button and shows
the video of `A`. -/
theorem C2_stale_response_clobbers_new_job :
    ((run (page (some 100) "") supersededTrace).pending.lookup 0
        = some (Request.get "/api/video-status/A") ∧
      (run (page (some 100) "") supersededTrace).timers
        = [{ handle := 2, jobId := some "B", delay := 5000 }] ∧
      (run (page (some 100) "") supersededTrace).pollInterval = some 2 ∧
      (run (page (some 100) "") supersededTrace).statusText_textContent = "" ∧
      (step (run (page (some 100) "") supersededTrace)
        (Event.settle 0 (okJson failedData))).timers = [] ∧
      (step (run (page (some 100) "") supersededTrace)
        (Event.settle 0 (okJson failedData))).pollInterval = none ∧
      (step (run (page (some 100) "") supersededTrace)
        (Event.settle 0 (okJson failedData))).statusText_textContent = "model error") ∧
    ((page (some 100) "a cat surfing").generateBtn_disabled = false ∧
      (run (page (some 100) "a cat surfing") (resubmitTrace.take 4)).generateBtn_disabled = false ∧
      (run (page (some 100) "a cat surfing") resubmitTrace).pending.lookup 2
        = some (Request.get "/api/video-status/A") ∧
      (run (page (some 100) "a cat surfing") resubmitTrace).timers
        = [{ handle := 2, jobId := some "B", delay := 5000 }] ∧
      (run (page (some 100) "a cat surfing") resubmitTrace).pollInterval = some 2 ∧
      (run (page (some 100) "a cat surfing") resubmitTrace).generateBtn_disabled = true ∧
      (run (page (some 100) "a cat surfing") resubmitTrace).videoSection_hidden = true ∧
      (step (run (page (some 100) "a cat surfing") resubmitTrace)
        (Event.settle 2 (okJson readyA))).timers = [] ∧
      (step (run (page (some 100) "a cat surfing") resubmitTrace)
        (Event.settle 2 (okJson readyA))).pollInterval = none ∧
      (step (run (page (some 100) "a cat surfing") resubmitTrace)
        (Event.settle 2 (okJson readyA))).generateBtn_disabled = false ∧
      (step (run (page (some 100) "a cat surfing") resubmitTrace)
        (Event.settle 2 (okJson readyA))).videoSection_hidden = false ∧
      (step (run (page (some 100) "a cat surfing") resubmitTrace)
        (Event.settle 2 (okJson readyA))).videoEl_src = "https://x/A.mp4" ∧
      (step (run (page (some 100) "a cat surfing") resubmitTrace)
        (Event.settle 2 (okJson readyA))).statusText_textContent = "Video ready!") := by
  decide

/-- C3: in every reachable state the armed timers are exactly the handle
stored in `pollInterval` (so at most one is armed), and `pollJobStatus` leaves
exactly one timer armed, the new one it stores, the previously stored handle
being a different one and no longer armed. -/
theorem C3_single_timer (s : State) (hr : Reachable s) :
    s.timers.map Timer.handle = s.pollInterval.toList ∧
    s.timers.length ≤ 1 ∧
    ∀ jobId : Option String,
      (pollJobStatus s jobId).timers
        = [{ handle := s.nextHandle, jobId := jobId, delay := 5000 }] ∧
      (pollJobStatus s jobId).pollInterval = some s.nextHandle ∧
      ∀ h, s.pollInterval = some h →
        h ≠ s.nextHandle ∧ ∀ t ∈ (pollJobStatus s jobId).timers, t.handle ≠ h := by
  have hi := inv_reachable hr
  refine ⟨hi.2.1, ?_, fun jobId => ?_⟩
  · have hl : (s.timers.map Timer.handle).length ≤ 1 := by
      rw [hi.2.1]
      cases s.pollInterval <;> simp
    simpa using hl
  · obtain ⟨ht, hp, _⟩ := pollJobStatus_spec hi jobId
    refine ⟨ht, hp, fun h hh => ?_⟩
    have hlt := (hi.2.2 h hh).2
    refine ⟨Nat.ne_of_lt hlt, fun t htm => ?_⟩
    rw [ht] at htm
    simp at htm
    subst htm
    exact Nat.ne_of_gt hlt

/-- C3 on the page that tracks job `B` after job `A`. -/
theorem C3_single_timer_witness :
    Reachable (run (page (some 100) "") supersededTrace) ∧
    (run (page (some 100) "") supersededTrace).timers.map Timer.handle
      = (run (page (some 100) "") supersededTrace).pollInterval.toList ∧
    (run (page (some 100) "") supersededTrace).timers.length ≤ 1 :=
  ⟨reachable_page _ _ _,
   (C3_single_timer _ (reachable_page (some 100) "" supersededTrace)).1,
   (C3_single_timer _ (reachable_page (some 100) "" supersededTrace)).2.1⟩

/-- A settled status request resumes `checkStatus`. -/
theorem step_settle_get (s : State) (rid : Nat) (url : String) (o : Outcome)
    (hp : s.pending.lookup rid = some (Request.get url)) :
    step s (Event.settle rid o)
      = checkStatusResume { s with pending := s.pending.filter fun p => p.1 != rid } o := by
  simp [step, hp]

/-- A settled create request resumes `startVideoJob`. -/
theorem step_settle_post (s : State) (rid : Nat) (url prompt : String) (o : Outcome)
    (hp : s.pending.lookup rid = some (Request.post url prompt)) :
    step s (Event.settle rid o)
      = startVideoJobResume { s with pending := s.pending.filter fun p => p.1 != rid } o := by
  simp [step, hp]

/-- The stored handle is cancelled whatever else of the page changed. -/
theorem stored_cleared {s s1 : State} (hi : Inv s) (ht : s1.timers = s.timers)
    (hp : s1.pollInterval = s.pollInterval) :
    (clearInterval s1 s1.pollInterval).timers = [] := by
  rw [hp]
  cases hq : s.pollInterval with
  | none => simpa [clearInterval, ht] using timers_nil_of_none hi hq
  | some h => simpa [clearInterval, ht] using filter_stored_nil hi hq

/-- C4: once a status response that is terminal (`completed` with a
`video_url`, or `failed`) has been processed, no status request is issued any
more, in any continuation in which `pollJobStatus` is not called again; the
processing itself issues none either. -/
theorem C4_no_request_after_terminal (s : State) (hr : Reachable s) (rid : Nat) (url : String)
    (hp : s.pending.lookup rid = some (Request.get url)) (data : Fields)
    (hterm : (data.status = some "completed" ∧ truthy data.video_url = true) ∨
      data.status = some "failed")
    (es : List Event)
    (hno : (run (step s (Event.settle rid (okJson data))) es).pollCalls
      = (step s (Event.settle rid (okJson data))).pollCalls) :
    (step s (Event.settle rid (okJson data))).sent = s.sent ∧
    (run (step s (Event.settle rid (okJson data))) es).sent.filter Request.isGet
      = s.sent.filter Request.isGet := by
  have hi := inv_reachable hr
  have hsent : (step s (Event.settle rid (okJson data))).sent = s.sent := by
    rw [step_settle_get s rid url _ hp, (checkStatusResume_frame _ _).1]
  have htimers : (step s (Event.settle rid (okJson data))).timers = [] := by
    rw [step_settle_get s rid url _ hp]
    have hc : ∀ s1 : State, s1.timers = s.timers → s1.pollInterval = s.pollInterval →
        (clearInterval s1 s1.pollInterval).timers = [] :=
      fun s1 h1 h2 => stored_cleared hi h1 h2
    rcases hterm with ⟨h1, h2⟩ | h1
    · simp only [checkStatusResume, okJson, fetchJobStatusResult, h1, h2, and_self, if_true,
        setLoadingState]
      exact hc _ rfl rfl
    · have hne : ¬ (data.status = some "completed" ∧ truthy data.video_url = true) := by
        rw [h1]
        intro h
        exact absurd h.1 (by decide)
      simp only [checkStatusResume, okJson, fetchJobStatusResult, hne, if_false, setLoadingState]
      simp only [h1, if_true]
      exact hc _ rfl rfl
  refine ⟨hsent, ?_⟩
  rw [run_quiet es _ htimers hno, hsent]

/-- C4 on the page tracking job `42`: after `failed` was processed, a tick
of the old handle, a click on the emptied prompt and further input issue no
status request. -/
theorem C4_no_request_after_terminal_witness :
    Reachable trackingPage ∧
    (step trackingPage (Event.settle 1 (okJson failedData))).sent = trackingPage.sent ∧
    (run (step trackingPage (Event.settle 1 (okJson failedData)))
        [Event.tick 1, Event.input "", Event.click]).sent.filter Request.isGet
      = trackingPage.sent.filter Request.isGet :=
  ⟨reachable_page _ _ _,
   C4_no_request_after_terminal trackingPage (reachable_page _ _ _) 1 "/api/video-status/42"
     (by decide) failedData (Or.inr rfl) [Event.tick 1, Event.input "", Event.click]
     (by decide)⟩

/-- C5: a 2xx status response with status `completed` and a non-empty
`video_url` `u` leaves no timer armed and `pollInterval` null, the button
enabled with its idle label, the result panel shown, the video source and the
download link set to `u`, and the status message `Video ready!`. -/
theorem C5_completed_with_url (s : State) (hr : Reachable s) (rid : Nat) (url : String)
    (hp : s.pending.lookup rid = some (Request.get url)) (data : Fields) (u : String)
    (hs : data.status = some "completed") (hu : data.video_url = some u) (hne : u ≠ "") :
    (step s (Event.settle rid (okJson data))).timers = [] ∧
    (step s (Event.settle rid (okJson data))).pollInterval = none ∧
    (step s (Event.settle rid (okJson data))).generateBtn_disabled = false ∧
    (step s (Event.settle rid (okJson data))).generateBtn_textContent = "Generate Video" ∧
    (step s (Event.settle rid (okJson data))).videoSection_hidden = false ∧
    (step s (Event.settle rid (okJson data))).videoEl_src = u ∧
    (step s (Event.settle rid (okJson data))).downloadLink_href = u ∧
    (step s (Event.settle rid (okJson data))).statusText_textContent = "Video ready!" := by
  have hi := inv_reachable hr
  have ht : truthy data.video_url = true := by simp [truthy, hu, hne]
  rw [step_settle_get s rid url _ hp]
  simp only [checkStatusResume, okJson, fetchJobStatusResult, hs, ht, and_self, if_true,
    setLoadingState]
  refine ⟨stored_cleared hi rfl rfl, ?_, ?_, ?_, ?_, ?_, ?_, ?_⟩
  all_goals first
    | trivial
    | rfl
    | simp [hu, jsToString]

/-- C5 on scenario 3. -/
theorem C5_completed_with_url_witness :
    Reachable trackingPage ∧
    (step trackingPage (Event.settle 1 (okJson readyData))).timers = [] ∧
    (step trackingPage (Event.settle 1 (okJson readyData))).pollInterval = none ∧
    (step trackingPage (Event.settle 1 (okJson readyData))).generateBtn_disabled = false ∧
    (step trackingPage (Event.settle 1 (okJson readyData))).generateBtn_textContent
      = "Generate Video" ∧
    (step trackingPage (Event.settle 1 (okJson readyData))).videoSection_hidden = false ∧
    (step trackingPage (Event.settle 1 (okJson readyData))).videoEl_src = "https://x/y.mp4" ∧
    (step trackingPage (Event.settle 1 (okJson readyData))).downloadLink_href
      = "https://x/y.mp4" ∧
    (step trackingPage (Event.settle 1 (okJson readyData))).statusText_textContent
      = "Video ready!" :=
  ⟨reachable_page _ _ _,
   C5_completed_with_url trackingPage (reachable_page _ _ _) 1 "/api/video-status/42"
     (by decide) readyData "https://x/y.mp4" rfl rfl (by decide)⟩

/-- C6, as stated, fails: on the page tracking job `42` (timer 1 armed,
button disabled) a 2xx status response whose body is JSON `null`, or cannot be
parsed, is neither `completed` with a `video_url` nor `failed`, yet it ends in
the `catch` block of `checkStatus`: the timer is cancelled, `pollInterval` is
null, the button is enabled again and the message is that of the error. -/
theorem C6_malformed_success_body_stops_poll :
    trackingPage.pending.lookup 1 = some (Request.get "/api/video-status/42") ∧
    trackingPage.timers = [{ handle := 1, jobId := some "42", delay := 5000 }] ∧
    trackingPage.pollInterval = some 1 ∧
    trackingPage.generateBtn_disabled = true ∧
    (step trackingPage (Event.settle 1 (Outcome.response true (Body.json (Json.null
      "Cannot read properties of null"))))).timers = [] ∧
    (step trackingPage (Event.settle 1 (Outcome.response true (Body.json (Json.null
      "Cannot read properties of null"))))).pollInterval = none ∧
    (step trackingPage (Event.settle 1 (Outcome.response true (Body.json (Json.null
      "Cannot read properties of null"))))).generateBtn_disabled = false ∧
    (step trackingPage (Event.settle 1 (Outcome.response true (Body.json (Json.null
      "Cannot read properties of null"))))).statusText_textContent
      = "Cannot read properties of null" ∧
    (step trackingPage (Event.settle 1 (Outcome.response true (Body.unparsable
      "Unexpected end of JSON input")))).timers = [] ∧
    (step trackingPage (Event.settle 1 (Outcome.response true (Body.unparsable
      "Unexpected end of JSON input")))).pollInterval = none ∧
    (step trackingPage (Event.settle 1 (Outcome.response true (Body.unparsable
      "Unexpected end of JSON input")))).generateBtn_disabled = false ∧
    (step trackingPage (Event.settle 1 (Outcome.response true (Body.unparsable
      "Unexpected end of JSON input")))).statusText_textContent
      = "Unexpected end of JSON input" := by
  decide

/-- C6, amended: a 2xx status response whose body is a JSON object and
that is neither `completed` with a `video_url` nor `failed` changes neither the
timers nor `pollInterval`, neither the button nor the result panel; the status
message becomes the detail when there is a non-empty one, and
`Current status: X` otherwise. -/
theorem C6_nonterminal_response (s : State) (rid : Nat) (url : String)
    (hp : s.pending.lookup rid = some (Request.get url)) (data : Fields)
    (h1 : ¬ (data.status = some "completed" ∧ truthy data.video_url = true))
    (h2 : data.status ≠ some "failed") :
    (step s (Event.settle rid (okJson data))).timers = s.timers ∧
    (step s (Event.settle rid (okJson data))).pollInterval = s.pollInterval ∧
    (step s (Event.settle rid (okJson data))).generateBtn_disabled = s.generateBtn_disabled ∧
    (step s (Event.settle rid (okJson data))).generateBtn_textContent
      = s.generateBtn_textContent ∧
    (step s (Event.settle rid (okJson data))).videoSection_hidden = s.videoSection_hidden ∧
    (step s (Event.settle rid (okJson data))).videoEl_src = s.videoEl_src ∧
    (step s (Event.settle rid (okJson data))).downloadLink_href = s.downloadLink_href ∧
    (∀ d, data.detail = some d → d ≠ "" →
      (step s (Event.settle rid (okJson data))).statusText_textContent = d) ∧
    ((data.detail = none ∨ data.detail = some "") →
      (step s (Event.settle rid (okJson data))).statusText_textContent
        = "Current status: " ++ jsToString data.status) := by
  rw [step_settle_get s rid url _ hp]
  simp only [checkStatusResume, okJson, fetchJobStatusResult, h1, h2, if_false]
  refine ⟨?_, ?_, ?_, ?_, ?_, ?_, ?_, ?_, ?_⟩
  all_goals first
    | trivial
    | rfl
    | (intro d hd hne
       simp [hd, jsOr, strOr, hne])
    | (rintro (hd | hd) <;> simp [hd, jsOr, strOr])

/-- C6, amended, on a `completed` response without `video_url`, on the page tracking
job `42`: timer 1 stays armed and the panel stays hidden. -/
theorem C6_nonterminal_response_witness :
    (step trackingPage (Event.settle 1 (okJson completedNoUrl))).timers
      = [{ handle := 1, jobId := some "42", delay := 5000 }] ∧
    (step trackingPage (Event.settle 1 (okJson completedNoUrl))).generateBtn_disabled = true ∧
    (step trackingPage (Event.settle 1 (okJson completedNoUrl))).videoSection_hidden = true ∧
    (step trackingPage (Event.settle 1 (okJson completedNoUrl))).statusText_textContent
      = "Current status: completed" :=
  have h := C6_nonterminal_response trackingPage 1 "/api/video-status/42" (by decide)
    completedNoUrl (by decide) (by decide)
  ⟨h.1, h.2.2.1, h.2.2.2.2.1, h.2.2.2.2.2.2.2.2 (Or.inl rfl)⟩

/-- C7: a 2xx status response with status `failed` leaves no timer armed
and `pollInterval` null, the button enabled with its idle label, the result
panel as it was; the status message is the detail when there is a non-empty
one, and `Video generation failed.` otherwise. -/
theorem C7_failed_response (s : State) (hr : Reachable s) (rid : Nat) (url : String)
    (hp : s.pending.lookup rid = some (Request.get url)) (data : Fields)
    (hs : data.status = some "failed") :
    (step s (Event.settle rid (okJson data))).timers = [] ∧
    (step s (Event.settle rid (okJson data))).pollInterval = none ∧
    (step s (Event.settle rid (okJson data))).generateBtn_disabled = false ∧
    (step s (Event.settle rid (okJson data))).generateBtn_textContent = "Generate Video" ∧
    (step s (Event.settle rid (okJson data))).videoSection_hidden = s.videoSection_hidden ∧
    (step s (Event.settle rid (okJson data))).videoEl_src = s.videoEl_src ∧
    (step s (Event.settle rid (okJson data))).downloadLink_href = s.downloadLink_href ∧
    (∀ d, data.detail = some d → d ≠ "" →
      (step s (Event.settle rid (okJson data))).statusText_textContent = d) ∧
    ((data.detail = none ∨ data.detail = some "") →
      (step s (Event.settle rid (okJson data))).statusText_textContent
        = "Video generation failed.") := by
  have hi := inv_reachable hr
  have hne : ¬ (data.status = some "completed" ∧ truthy data.video_url = true) := by
    rw [hs]
    intro h
    exact absurd h.1 (by decide)
  rw [step_settle_get s rid url _ hp]
  simp only [checkStatusResume, okJson, fetchJobStatusResult, hne, if_false, setLoadingState]
  simp only [hs, if_true]
  refine ⟨stored_cleared hi rfl rfl, ?_, ?_, ?_, ?_, ?_, ?_, ?_, ?_⟩
  all_goals first
    | trivial
    | rfl
    | (cases s.pollInterval <;> rfl)
    | (intro d hd hne
       simp [hd, jsOr, strOr, hne])
    | (rintro (hd | hd) <;> simp [hd, jsOr, strOr])

/-- C7 on scenario 4. -/
theorem C7_failed_response_witness :
    Reachable trackingPage ∧
    (step trackingPage (Event.settle 1 (okJson failedData))).timers = [] ∧
    (step trackingPage (Event.settle 1 (okJson failedData))).pollInterval = none ∧
    (step trackingPage (Event.settle 1 (okJson failedData))).generateBtn_disabled = false ∧
    (step trackingPage (Event.settle 1 (okJson failedData))).statusText_textContent
      = "model error" :=
  have h := C7_failed_response trackingPage (reachable_page _ _ _) 1 "/api/video-status/42"
    (by decide) failedData rfl
  ⟨reachable_page _ _ _, h.1, h.2.1, h.2.2.1, h.2.2.2.2.2.2.2.1 "model error" rfl (by decide)⟩

/-- What the `catch` block of `checkStatus` leaves behind. -/
theorem checkStatusCatch_spec {s s1 : State} (hi : Inv s) (ht : s1.timers = s.timers)
    (hp : s1.pollInterval = s.pollInterval) (msg : String) :
    (checkStatusCatch s1 msg).timers = [] ∧
    (checkStatusCatch s1 msg).pollInterval = none ∧
    (checkStatusCatch s1 msg).generateBtn_disabled = false ∧
    (checkStatusCatch s1 msg).generateBtn_textContent = "Generate Video" ∧
    (checkStatusCatch s1 msg).sent = s1.sent ∧
    (checkStatusCatch s1 msg).statusText_textContent = strOr msg "Unable to get job status." := by
  refine ⟨stored_cleared hi ht hp, ?_, ?_, ?_, ?_, ?_⟩
  all_goals first
    | rfl
    | (cases hq : s1.pollInterval <;> simp [checkStatusCatch, setLoadingState, clearInterval, hq])

/-- A failed status fetch ends in the `catch` block of `checkStatus`, with this message. -/
theorem checkStatusResume_failure (s : State) (o : Outcome)
    (hfail : (∃ m, o = Outcome.rejected m) ∨ (∃ b, o = Outcome.response false b)) :
    ∃ msg, checkStatusResume s o = checkStatusCatch s msg ∧
      (∀ m, o = Outcome.rejected m → msg = m) ∧
      (∀ m, o = Outcome.response false (Body.json (Json.null m)) → msg = m) ∧
      (∀ m, o = Outcome.response false (Body.unparsable m) → msg = "Unknown error") ∧
      (∀ f, o = Outcome.response false (Body.json (Json.obj f)) →
        msg = jsOr f.detail "Failed to fetch job status") := by
  rcases hfail with ⟨m, rfl⟩ | ⟨b, rfl⟩
  · exact ⟨m, rfl, by simp, by simp, by simp, by simp⟩
  · cases b with
    | unparsable m =>
        exact ⟨"Unknown error", by simp [checkStatusResume, fetchJobStatusResult, strOr],
          by simp, by simp, by simp, by simp⟩
    | json j =>
        cases j with
        | null m => exact ⟨m, rfl, by simp, by simp, by simp, by simp⟩
        | obj f =>
            exact ⟨jsOr f.detail "Failed to fetch job status", rfl, by simp, by simp, by simp,
              by simp⟩

/-- C8: when the status fetch fails (the request rejects, or the response
is not 2xx), no timer stays armed and `pollInterval` is null, the button is
enabled with its idle label, the cycle issues no request and no status request
follows as long as `pollJobStatus` is not called again.  The status message is
the body's detail when it has a non-empty one, `Failed to fetch job status`
when it has none, `Unknown error` when the body cannot be parsed, and the
message of the error when the request rejects (or the body is `null`), with
`Unable to get job status.` standing in for an empty message. -/
theorem C8_poll_fetch_failure (s : State) (hr : Reachable s) (rid : Nat) (url : String)
    (hp : s.pending.lookup rid = some (Request.get url)) (o : Outcome)
    (hfail : (∃ m, o = Outcome.rejected m) ∨ (∃ b, o = Outcome.response false b)) :
    (step s (Event.settle rid o)).timers = [] ∧
    (step s (Event.settle rid o)).pollInterval = none ∧
    (step s (Event.settle rid o)).generateBtn_disabled = false ∧
    (step s (Event.settle rid o)).generateBtn_textContent = "Generate Video" ∧
    (step s (Event.settle rid o)).sent = s.sent ∧
    (∀ es : List Event,
      (run (step s (Event.settle rid o)) es).pollCalls = (step s (Event.settle rid o)).pollCalls →
      (run (step s (Event.settle rid o)) es).sent.filter Request.isGet
        = s.sent.filter Request.isGet) ∧
    (∀ f d, o = Outcome.response false (Body.json (Json.obj f)) → f.detail = some d → d ≠ "" →
      (step s (Event.settle rid o)).statusText_textContent = d) ∧
    (∀ f, o = Outcome.response false (Body.json (Json.obj f)) →
      (f.detail = none ∨ f.detail = some "") →
      (step s (Event.settle rid o)).statusText_textContent = "Failed to fetch job status") ∧
    (∀ m, o = Outcome.response false (Body.unparsable m) →
      (step s (Event.settle rid o)).statusText_textContent = "Unknown error") ∧
    (∀ m, (o = Outcome.rejected m ∨ o = Outcome.response false (Body.json (Json.null m))) →
      (step s (Event.settle rid o)).statusText_textContent
        = if m = "" then "Unable to get job status." else m) := by
  have hi := inv_reachable hr
  obtain ⟨msg, he, hrej, hnull, hunp, hobj⟩ :=
    checkStatusResume_failure { s with pending := s.pending.filter fun p => p.1 != rid } o hfail
  have hstep : step s (Event.settle rid o)
      = checkStatusCatch { s with pending := s.pending.filter fun p => p.1 != rid } msg := by
    rw [step_settle_get s rid url o hp, he]
  obtain ⟨h1, h2, h3, h4, h5, h6⟩ :=
    @checkStatusCatch_spec s { s with pending := s.pending.filter fun p => p.1 != rid }
      hi rfl rfl msg
  rw [hstep]
  refine ⟨h1, h2, h3, h4, h5, ?_, ?_, ?_, ?_, ?_⟩
  · intro es hno
    rw [run_quiet es _ h1 hno, h5]
  · intro f d ho hd hne
    rw [h6, hobj f ho, hd]
    simp [jsOr, strOr, hne]
  · intro f ho hd
    rw [h6, hobj f ho]
    rcases hd with hd | hd <;> simp [hd, jsOr, strOr]
  · intro m ho
    rw [h6, hunp m ho]
    simp [strOr]
  · intro m ho
    rw [h6]
    rcases ho with ho | ho
    · rw [hrej m ho]
      rfl
    · rw [hnull m ho]
      rfl

/-- C8 on the page tracking job `42`, for a 500 response with the body `detail: "boom"`. -/
theorem C8_poll_fetch_failure_witness :
    Reachable trackingPage ∧
    (step trackingPage (Event.settle 1 (Outcome.response false (Body.json (Json.obj
      { noFields with detail := some "boom" }))))).timers = [] ∧
    (step trackingPage (Event.settle 1 (Outcome.response false (Body.json (Json.obj
      { noFields with detail := some "boom" }))))).generateBtn_disabled = false ∧
    (step trackingPage (Event.settle 1 (Outcome.response false (Body.json (Json.obj
      { noFields with detail := some "boom" }))))).statusText_textContent = "boom" :=
  have h := C8_poll_fetch_failure trackingPage (reachable_page _ _ _) 1 "/api/video-status/42"
    (by decide) (Outcome.response false (Body.json (Json.obj
      { noFields with detail := some "boom" }))) (Or.inr ⟨_, rfl⟩)
  ⟨reachable_page _ _ _, h.1, h.2.2.1,
   h.2.2.2.2.2.2.1 { noFields with detail := some "boom" } "boom" rfl rfl (by decide)⟩

/-! ## The create request -/

/-- C9, as stated, fails: on the page that submitted `a cat surfing`, a 2xx
answer whose body is an object without `job_id` starts the poller all the same:
a timer is armed and stored, `GET /api/video-status/undefined` is issued, the
button stays disabled and the message is the in-progress one. -/
theorem C9_missing_job_id_starts_poller :
    submittedPage.pending.lookup 0
      = some (Request.post "/api/generate-video" "a cat surfing") ∧
    submittedPage.timers = [] ∧
    (step submittedPage (Event.settle 0 (okJson noFields))).timers
      = [{ handle := 1, jobId := none, delay := 5000 }] ∧
    (step submittedPage (Event.settle 0 (okJson noFields))).pollInterval = some 1 ∧
    (step submittedPage (Event.settle 0 (okJson noFields))).sent
      = [Request.post "/api/generate-video" "a cat surfing",
         Request.get "/api/video-status/undefined"] ∧
    (step submittedPage (Event.settle 0 (okJson noFields))).generateBtn_disabled = true ∧
    (step submittedPage (Event.settle 0 (okJson noFields))).pollCalls = 1 ∧
    (step submittedPage (Event.settle 0 (okJson noFields))).statusText_textContent
      = "Video generation started. This may take a couple of minutes…" := by
  decide

/-- A failed create request ends in the `catch` block of `startVideoJob`, with this message. -/
theorem startVideoJobResume_failure (s : State) (o : Outcome)
    (hfail : (∃ m, o = Outcome.rejected m) ∨ (∃ b, o = Outcome.response false b) ∨
      (∃ m, o = Outcome.response true (Body.unparsable m)) ∨
      (∃ m, o = Outcome.response true (Body.json (Json.null m)))) :
    ∃ s1 msg, startVideoJobResume s o = startVideoJobCatch s1 msg ∧
      s1.timers = s.timers ∧ s1.pollInterval = s.pollInterval ∧ s1.sent = s.sent ∧
      s1.pollCalls = s.pollCalls ∧
      (∀ m, (o = Outcome.rejected m ∨ o = Outcome.response false (Body.json (Json.null m)) ∨
          o = Outcome.response true (Body.unparsable m) ∨
          o = Outcome.response true (Body.json (Json.null m))) → msg = m) ∧
      (∀ m, o = Outcome.response false (Body.unparsable m) → msg = "Unknown error") ∧
      (∀ f, o = Outcome.response false (Body.json (Json.obj f)) →
        msg = jsOr f.detail "Failed to start video job") := by
  rcases hfail with ⟨m, rfl⟩ | ⟨b, rfl⟩ | ⟨m, rfl⟩ | ⟨m, rfl⟩
  · exact ⟨s, m, rfl, rfl, rfl, rfl, rfl, by simp, by simp, by simp⟩
  · cases b with
    | unparsable m =>
        exact ⟨s, "Unknown error", by simp [startVideoJobResume, strOr], rfl, rfl, rfl, rfl,
          by simp, by simp, by simp⟩
    | json j =>
        cases j with
        | null m => exact ⟨s, m, rfl, rfl, rfl, rfl, rfl, by simp, by simp, by simp⟩
        | obj f =>
            exact ⟨s, jsOr f.detail "Failed to start video job", rfl, rfl, rfl, rfl, rfl,
              by simp, by simp, by simp⟩
  · exact ⟨s, m, rfl, rfl, rfl, rfl, rfl, by simp, by simp, by simp⟩
  · exact ⟨_, m, rfl, rfl, rfl, rfl, rfl, by simp, by simp, by simp⟩

/-- C9, amended: when the create request fails (it rejects, the response
is not 2xx, or it is 2xx with a body that cannot be parsed or is `null`), the
button is enabled with its idle label and no poller is started: timers and
`pollInterval` are as before, no request is issued and `pollJobStatus` is not
called.  The status message is the body's detail when a non-2xx body has a
non-empty one, `Failed to start video job` when it has none, `Unknown error`
when a non-2xx body cannot be parsed, and otherwise the message of the error,
with `Unable to start video generation job.` standing in for an empty one. -/
theorem C9_create_failure (s : State) (rid : Nat) (url prompt : String)
    (hp : s.pending.lookup rid = some (Request.post url prompt)) (o : Outcome)
    (hfail : (∃ m, o = Outcome.rejected m) ∨ (∃ b, o = Outcome.response false b) ∨
      (∃ m, o = Outcome.response true (Body.unparsable m)) ∨
      (∃ m, o = Outcome.response true (Body.json (Json.null m)))) :
    (step s (Event.settle rid o)).generateBtn_disabled = false ∧
    (step s (Event.settle rid o)).generateBtn_textContent = "Generate Video" ∧
    (step s (Event.settle rid o)).timers = s.timers ∧
    (step s (Event.settle rid o)).pollInterval = s.pollInterval ∧
    (step s (Event.settle rid o)).sent = s.sent ∧
    (step s (Event.settle rid o)).pollCalls = s.pollCalls ∧
    (∀ f d, o = Outcome.response false (Body.json (Json.obj f)) → f.detail = some d → d ≠ "" →
      (step s (Event.settle rid o)).statusText_textContent = d) ∧
    (∀ f, o = Outcome.response false (Body.json (Json.obj f)) →
      (f.detail = none ∨ f.detail = some "") →
      (step s (Event.settle rid o)).statusText_textContent = "Failed to start video job") ∧
    (∀ m, o = Outcome.response false (Body.unparsable m) →
      (step s (Event.settle rid o)).statusText_textContent = "Unknown error") ∧
    (∀ m, (o = Outcome.rejected m ∨ o = Outcome.response false (Body.json (Json.null m)) ∨
        o = Outcome.response true (Body.unparsable m) ∨
        o = Outcome.response true (Body.json (Json.null m))) →
      (step s (Event.settle rid o)).statusText_textContent
        = if m = "" then "Unable to start video generation job." else m) := by
  obtain ⟨s1, msg, he, ht, hq, hs, hc, hmsg, hunp, hobj⟩ :=
    startVideoJobResume_failure { s with pending := s.pending.filter fun p => p.1 != rid } o hfail
  have hstep : step s (Event.settle rid o) = startVideoJobCatch s1 msg := by
    rw [step_settle_post s rid url prompt o hp, he]
  have hst : (startVideoJobCatch s1 msg).statusText_textContent
      = strOr msg "Unable to start video generation job." := rfl
  rw [hstep]
  refine ⟨rfl, by simp [startVideoJobCatch, setLoadingState], ht, hq, hs, hc, ?_, ?_, ?_, ?_⟩
  · intro f d ho hd hne
    rw [hst, hobj f ho, hd]
    simp [jsOr, strOr, hne]
  · intro f ho hd
    rw [hst, hobj f ho]
    rcases hd with hd | hd <;> simp [hd, jsOr, strOr]
  · intro m ho
    rw [hst, hunp m ho]
    simp [strOr]
  · intro m ho
    rw [hst, hmsg m ho]
    rfl

/-- C9, amended, on scenario 5: a 500 answer with the body `detail: "rate limited"`. -/
theorem C9_create_failure_witness :
    (step submittedPage (Event.settle 0 (Outcome.response false (Body.json (Json.obj
      { noFields with detail := some "rate limited" }))))).generateBtn_disabled = false ∧
    (step submittedPage (Event.settle 0 (Outcome.response false (Body.json (Json.obj
      { noFields with detail := some "rate limited" }))))).timers = submittedPage.timers ∧
    (step submittedPage (Event.settle 0 (Outcome.response false (Body.json (Json.obj
      { noFields with detail := some "rate limited" }))))).sent = submittedPage.sent ∧
    (step submittedPage (Event.settle 0 (Outcome.response false (Body.json (Json.obj
      { noFields with detail := some "rate limited" }))))).statusText_textContent
      = "rate limited" :=
  have h := C9_create_failure submittedPage 0 "/api/generate-video" "a cat surfing" (by decide)
    (Outcome.response false (Body.json (Json.obj { noFields with detail := some "rate limited" })))
    (Or.inr (Or.inl ⟨_, rfl⟩))
  ⟨h.1, h.2.2.1, h.2.2.2.2.1,
   h.2.2.2.2.2.2.1 { noFields with detail := some "rate limited" } "rate limited" rfl rfl
     (by decide)⟩

/-- C10: when the create request of a submitted prompt returns 2xx with a
body whose `job_id` is `j`, the status message becomes the in-progress one,
`pollJobStatus` is called once, `GET /api/video-status/j` is issued within that
very turn and is pending, and exactly one timer is armed, with period 5000 ms
and job `j`, under the handle stored in `pollInterval`. -/
theorem C10_create_success_polls (s : State) (hr : Reachable s) (rid : Nat)
    (url prompt : String) (hp : s.pending.lookup rid = some (Request.post url prompt))
    (data : Fields) (j : String) (hj : data.job_id = some j) :
    (step s (Event.settle rid (okJson data))).statusText_textContent
      = "Video generation started. This may take a couple of minutes…" ∧
    (step s (Event.settle rid (okJson data))).pollCalls = s.pollCalls + 1 ∧
    (step s (Event.settle rid (okJson data))).sent
      = s.sent ++ [Request.get ("/api/video-status/" ++ j)] ∧
    (s.sent.length, Request.get ("/api/video-status/" ++ j))
      ∈ (step s (Event.settle rid (okJson data))).pending ∧
    (step s (Event.settle rid (okJson data))).timers
      = [{ handle := s.nextHandle, jobId := some j, delay := 5000 }] ∧
    (step s (Event.settle rid (okJson data))).pollInterval = some s.nextHandle := by
  have hi := inv_reachable hr
  have hi1 : Inv { s with
      pending := s.pending.filter fun p => p.1 != rid
      statusText_textContent :=
        "Video generation started. This may take a couple of minutes…" } :=
    inv_congr hi rfl rfl rfl
  obtain ⟨h1, h2, _, h4, h5, h6, h7, _⟩ := pollJobStatus_spec hi1 (some j)
  rw [step_settle_post s rid url prompt _ hp]
  simp only [startVideoJobResume, okJson, hj]
  refine ⟨h7, h6, h4, ?_, h1, h2⟩
  rw [h5]
  simp [jsToString]

/-- C10 on scenario 2. -/
theorem C10_create_success_polls_witness :
    Reachable submittedPage ∧
    (step submittedPage (Event.settle 0 (okJson { noFields with job_id := some "42" }))).sent
      = submittedPage.sent ++ [Request.get ("/api/video-status/" ++ "42")] ∧
    (step submittedPage (Event.settle 0 (okJson { noFields with job_id := some "42" }))).timers
      = [{ handle := submittedPage.nextHandle, jobId := some "42", delay := 5000 }] :=
  have h := C10_create_success_polls submittedPage (reachable_page _ _ _) 0
    "/api/generate-video" "a cat surfing" (by decide) { noFields with job_id := some "42" }
    "42" rfl
  ⟨reachable_page _ _ _, h.2.2.1, h.2.2.2.2.1⟩

end BedRock
